import Mathlib

/-!
Verification of the Freesail Renderer ("Agent B") session-and-tool-orchestration
engine, shallowly embedded from `src/Example - Multi-agent/agent-b/agent_b.py`.

The embedding models:
  * the MCP provider as a pure oracle (`McpSession`): responses to
    `list_resources`, `read_resource` and `call_tool`;
  * the OpenAI model backend as a script of replies, each either an
    assistant message or a raised exception (`ModelScript`);
  * the tool-calling loop of `execute_ui_generation` (the `while True`
    loop with its inner `for tool_call in msg.tool_calls`) as a structural
    recursion over the script, instrumented to record the message history
    at each model query and the MCP effects performed;
  * the FastAPI handler `handle_a2a_task` with its precondition checks;
  * the startup worker `mcp_worker` as a staged state transformer over the
    module-level globals `mcp_session`, `mcp_tools_cache`,
    `a2ui_prompt_cache`, with the states at each await point listed so
    that interleaving with request handling can be examined.

JSON strings are modelled as already parsed: a tool call's `arguments`
field is `Option ArgDict` (`none` = `json.loads` raises), and argument
values are kept as strings (only the `uri` key is ever inspected).
-/

namespace Freesail

/-- One content block of an MCP result (`TextContent` etc.); only its
text matters to the engine, which serializes blocks to flat strings. -/
structure ContentBlock where
  text : String
deriving Repr, DecidableEq

/-- A resource descriptor as returned by `mcp_session.list_resources()`. -/
structure ResourceDesc where
  uri : String
  name : String
deriving Repr, DecidableEq

/-- Result envelope of `mcp_session.call_tool`: `isError` flag plus a list
of content blocks, mirroring the MCP `CallToolResult`. -/
structure CallToolResult where
  isError : Bool
  content : List ContentBlock
deriving Repr, DecidableEq

/-- A discovered MCP tool descriptor (`tool.name`, `tool.description`,
`tool.inputSchema`); the schema is opaque to the engine so it is kept as a
string. -/
structure Tool where
  name : String
  description : String
  inputSchema : String
deriving Repr, DecidableEq

/-- Parsed JSON object of a tool call's arguments (`json.loads` result);
values are kept as strings since the engine only ever reads `uri`. -/
abbrev ArgDict := List (String × String)

/-- Python `dict.get`: first binding of the key, if any. -/
def argGet (args : ArgDict) (k : String) : Option String :=
  (args.find? (fun p => p.1 = k)).map (fun p => p.2)

/-- The live MCP session as a pure oracle: what the provider would answer
to each forwarded call. -/
structure McpSession where
  resources : List ResourceDesc
  readResourceR : String → List ContentBlock
  callToolR : String → ArgDict → CallToolResult

/-- One observable MCP side effect performed by the tool dispatcher. -/
inductive McpCall where
  | listResources
  | readResource (uri : String)
  | callTool (name : String) (args : ArgDict)
deriving Repr, DecidableEq

/-- `tool_call.function`: a name and the (parsed-or-malformed) arguments. -/
structure ToolCallFn where
  name : String
  arguments : Option ArgDict
deriving Repr, DecidableEq

/-- One `tool_call` entry of an assistant message. -/
structure ToolCall where
  id : String
  function : ToolCallFn
deriving Repr, DecidableEq

/-- An assistant reply from the model backend: text plus tool calls
(`msg.tool_calls`, the empty list standing for Python `None`). -/
structure AssistantMsg where
  content : String
  tool_calls : List ToolCall
deriving Repr, DecidableEq

/-- A conversation message as appended to the `messages` list. -/
inductive Message where
  | system (content : String)
  | user (content : String)
  | assistant (m : AssistantMsg)
  | tool (tool_call_id : String) (name : String) (content : String)
deriving Repr, DecidableEq

/-- `json.dumps(c.model_dump())` for one content block. -/
def dumpsContentBlock (b : ContentBlock) : String :=
  "\x7b\x22type\x22: \x22text\x22, \x22text\x22: \x22" ++ b.text ++ "\x22\x7d"

/-- Body of the JSON list serialization: items in order, comma separated. -/
def dumpsListBody : List ContentBlock → String
  | [] => ""
  | [b] => dumpsContentBlock b
  | b :: bs => dumpsContentBlock b ++ ", " ++ dumpsListBody bs

/-- `json.dumps([c.model_dump() for c in blocks])`: the blocks serialized
as a single ordered JSON array. -/
def dumpsContentList (blocks : List ContentBlock) : String :=
  "[" ++ dumpsListBody blocks ++ "]"

/-- Hexadecimal digit character, for `repr`'s `\xNN` escapes. -/
def hexDigit (n : Nat) : Char :=
  if n < 10 then Char.ofNat (48 + n) else Char.ofNat (87 + n)

/-- The quote character Python `repr` picks for a string: a double quote
(34) when the string contains a single quote (39) and no double quote,
otherwise a single quote. -/
def pyQuoteChar (s : String) : Char :=
  if (s.data.any fun c => c.toNat == 39) && ¬ (s.data.any fun c => c.toNat == 34) then
    Char.ofNat 34
  else Char.ofNat 39

/-- Python `repr`'s rendering of one character inside a quoted string:
backslash (92) and the chosen quote are backslash-escaped, newline (10),
carriage return (13) and tab (9) become `\n`, `\r`, `\t`, other control
characters become `\xNN`, and printable characters stand for themselves
(printability of non-ASCII codepoints is approximated as printable). -/
def pyEscapeChar (q c : Char) : String :=
  if c.toNat = 92 then "\\\\"
  else if c = q then "\\" ++ String.singleton q
  else if c.toNat = 10 then "\\n"
  else if c.toNat = 13 then "\\r"
  else if c.toNat = 9 then "\\t"
  else if c.toNat < 32 ∨ c.toNat = 127 then
    "\\x" ++ String.singleton (hexDigit (c.toNat / 16))
      ++ String.singleton (hexDigit (c.toNat % 16))
  else String.singleton c

/-- Concatenation of a per-character rendering over a character list. -/
def concatMapChars (f : Char → String) : List Char → String
  | [] => ""
  | c :: cs => f c ++ concatMapChars f cs

/-- Python `repr` of a string: the chosen quote, each character escaped,
the closing quote. -/
def pyReprStr (s : String) : String :=
  String.singleton (pyQuoteChar s)
    ++ concatMapChars (pyEscapeChar (pyQuoteChar s)) s.data
    ++ String.singleton (pyQuoteChar s)

/-- Python `repr` of one content block object, as it appears inside
`str(result.content)`: the pydantic repr with the string fields rendered
through `repr` (modelled with the `type` and `text` fields only). -/
def pyReprBlock (b : ContentBlock) : String :=
  "TextContent(type=" ++ pyReprStr "text" ++ ", text=" ++ pyReprStr b.text ++ ")"

/-- Texts Python `repr` renders unchanged between its quotes: printable
ASCII with no backslash (92) and neither quote character (39, 34). -/
def reprPlain (s : String) : Prop :=
  ∀ c ∈ s.data, 32 ≤ c.toNat ∧ c.toNat < 127 ∧
    c.toNat ≠ 92 ∧ c.toNat ≠ 39 ∧ c.toNat ≠ 34

instance (s : String) : Decidable (reprPlain s) := by
  unfold reprPlain; infer_instance

/-- Body of Python `str` of a list of blocks: items in order. -/
def pyStrBody : List ContentBlock → String
  | [] => ""
  | [b] => pyReprBlock b
  | b :: bs => pyReprBlock b ++ ", " ++ pyStrBody bs

/-- Python `str(result.content)` for a list of content blocks, as
interpolated by `f"Error: \x7bresult.content\x7d"`. -/
def pyStrContentList (blocks : List ContentBlock) : String :=
  "[" ++ pyStrBody blocks ++ "]"

/-- `json.dumps([r.model_dump() for r in response.resources])`. -/
def dumpsResources (rs : List ResourceDesc) : String :=
  "[" ++ String.intercalate ", "
    (rs.map (fun r =>
      "\x7b\x22uri\x22: \x22" ++ r.uri ++ "\x22, \x22name\x22: \x22" ++ r.name ++ "\x22\x7d")) ++ "]"

/-- Pydantic `AnyUrl` validation: requires a nonempty scheme, the literal
`://`, and a nonempty remainder; `AnyUrl(None)` raises. Modelled coarsely —
only definite acceptance of well-formed URLs and definite rejection of a
missing value matter to the claims. -/
def anyUrl : Option String → Except String String
  | none => .error "url_type: URL input should be a string, got None"
  | some s =>
    match s.splitOn "://" with
    | scheme :: rest :: _ =>
      if scheme ≠ "" && rest ≠ "" then .ok s
      else .error ("url_parsing: invalid URL " ++ s)
    | _ => .error ("url_parsing: invalid URL " ++ s)

/-- One iteration of the inner `for tool_call in msg.tool_calls` body up to
the `messages.append`: parses the arguments, dispatches on the function
name (built-ins `list_resources` / `read_resource` first, otherwise
`mcp_session.call_tool`), and produces the `content` string together with
the MCP effects performed; `.error` models a raised exception. -/
def dispatchCall (sessOpt : Option McpSession) (tc : ToolCall) :
    Except String (String × List McpCall) :=
  match tc.function.arguments with
  | none => .error "json.loads: malformed tool arguments"
  | some args =>
    if tc.function.name = "list_resources" then
      match sessOpt with
      | none => .error "AttributeError: NoneType has no attribute list_resources"
      | some sess => .ok (dumpsResources sess.resources, [McpCall.listResources])
    else if tc.function.name = "read_resource" then
      match sessOpt with
      | none => .error "AttributeError: NoneType has no attribute read_resource"
      | some sess =>
        match anyUrl (argGet args "uri") with
        | .error e => .error e
        | .ok u =>
          let contents := sess.readResourceR u
          .ok (dumpsContentList contents, [McpCall.readResource u])
    else
      match sessOpt with
      | none => .error "AttributeError: NoneType has no attribute call_tool"
      | some sess =>
        let result := sess.callToolR tc.function.name args
        if result.isError then
          .ok ("Error: " ++ pyStrContentList result.content,
               [McpCall.callTool tc.function.name args])
        else
          .ok ((if result.content = [] then "Success" else dumpsContentList result.content),
               [McpCall.callTool tc.function.name args])

/-- The tool-result message appended for one tool call (role `tool`, the
request id, the function name, the computed content). -/
def toolMsg (tc : ToolCall) (content : String) : Message :=
  Message.tool tc.id tc.function.name content

/-- The whole `for tool_call in msg.tool_calls` loop: dispatches the calls
in list order, appending one tool-result message per call. On a raised
exception it stops, keeping the messages and effects already produced
(Python list mutation persists up to the raise). -/
def processCalls (sessOpt : Option McpSession) :
    List ToolCall → Except (String × List Message × List McpCall) (List Message × List McpCall)
  | [] => .ok ([], [])
  | tc :: rest =>
    match dispatchCall sessOpt tc with
    | .error e => .error (e, [], [])
    | .ok (content, effs) =>
      match processCalls sessOpt rest with
      | .error (e, ms, is) => .error (e, toolMsg tc content :: ms, effs ++ is)
      | .ok (ms, is) => .ok (toolMsg tc content :: ms, effs ++ is)

/-- How one run of the `while True` loop ended: the model produced a reply
with no tool calls (`break`), an exception was raised (caught by the outer
`except`), or the scripted replies ran out with the loop still querying. -/
inductive LoopEnd where
  | finished (finalText : String)
  | errored (e : String)
  | outOfScript
deriving Repr, DecidableEq

/-- The model backend as a script: the reply (or raised exception) of each
successive `openai_client.chat.completions.create` call. -/
abbrev ModelScript := List (Except String AssistantMsg)

/-- Observation of one run: final `messages` list, the message history at
each model query issued, the MCP effects in order, and how the loop ended. -/
structure RunResult where
  messages : List Message
  queries : List (List Message)
  invocations : List McpCall
  ending : LoopEnd
deriving Repr, DecidableEq

/-- The `while True` loop of `execute_ui_generation`: query the model,
append the reply, break when it carries no tool calls, otherwise dispatch
every tool call and append its tool-result before the next query. A raised
exception (from the query itself or from a dispatch) ends the loop with
`errored`, keeping whatever was already appended. -/
def loopGo (sessOpt : Option McpSession) : ModelScript → List Message → RunResult
  | [], msgs => ⟨msgs, [msgs], [], LoopEnd.outOfScript⟩
  | r :: rest, msgs =>
    match r with
    | .error e => ⟨msgs, [msgs], [], LoopEnd.errored e⟩
    | .ok m =>
      let msgs1 := msgs ++ [Message.assistant m]
      if m.tool_calls = [] then
        ⟨msgs1, [msgs], [], LoopEnd.finished m.content⟩
      else
        match processCalls sessOpt m.tool_calls with
        | .error (e, ms, is) => ⟨msgs1 ++ ms, [msgs], is, LoopEnd.errored e⟩
        | .ok (ms, is) =>
          let res := loopGo sessOpt rest (msgs1 ++ ms)
          ⟨res.messages, msgs :: res.queries, is ++ res.invocations, res.ending⟩

/-- Module-level globals of agent_b: `mcp_session`, `mcp_tools_cache`,
`a2ui_prompt_cache`. -/
structure GlobalState where
  mcp_session : Option McpSession
  mcp_tools_cache : List Tool
  a2ui_prompt_cache : String

/-- The state of the globals at process start. -/
def initialState : GlobalState :=
  { mcp_session := none, mcp_tools_cache := [], a2ui_prompt_cache := "" }

/-- One entry of the `openai_tools` list (the function-calling schema sent
to the model backend). -/
structure OpenAITool where
  name : String
  description : String
  parameters : String
deriving Repr, DecidableEq

/-- The tool catalog built at the start of `execute_ui_generation`: every
cached MCP tool translated to the OpenAI function format, then the two
built-ins `list_resources` and `read_resource` appended. -/
def build_openai_tools (cache : List Tool) : List OpenAITool :=
  cache.map (fun t => ⟨t.name, t.description, t.inputSchema⟩) ++
  [ ⟨"list_resources", "List available MCP resources such as Catalogs.",
      "\x7b\x22type\x22: \x22object\x22, \x22properties\x22: \x7b\x7d, \x22required\x22: []\x7d"⟩,
    ⟨"read_resource", "Read the content of a specific MCP resource.",
      "\x7b\x22type\x22: \x22object\x22, \x22properties\x22: \x7b\x22uri\x22: ...\x7d, \x22required\x22: [\x22uri\x22]\x7d"⟩ ]

/-- The seed conversation: the cached system prompt plus the user message
embedding the session id and instruction. -/
def seedMessages (prompt session_id instruction : String) : List Message :=
  [ Message.system prompt,
    Message.user ("The user needs a UI. Target Session ID: \x22" ++ session_id
      ++ "\x22.\nInstruction: " ++ instruction
      ++ "\n\nMake sure to call create_surface, update_components, and update_data_model as needed.") ]

/-- `execute_ui_generation(session_id, instruction)`: builds the catalog
and seed messages from the globals, then runs the tool-calling loop inside
`try/except` — any exception is caught and logged, and the Python function
returns `None` in every case; `RunResult` is the instrumented observation
of the run, not a return value. -/
def execute_ui_generation (st : GlobalState) (script : ModelScript)
    (session_id instruction : String) : RunResult :=
  loopGo st.mcp_session script (seedMessages st.a2ui_prompt_cache session_id instruction)

/-- The request body of `POST /a2a/tasks/send`; `input` is a JSON object,
so its two fields are looked up with `.get` (hence `Option`). -/
structure A2ATaskRequest where
  task_id : String
  skill_id : String
  input_session_id : Option String
  input_instruction : Option String

/-- An `HTTPException(status_code, detail)` raised by the handler. -/
structure HTTPErr where
  status_code : Nat
  detail : String
deriving Repr, DecidableEq

/-- The JSON body returned by the handler on success. -/
structure A2AResponse where
  task_id : String
  status : String
  message : String
deriving Repr, DecidableEq

/-- Python truthiness of `.get` on a string field: `None` and `""` are
falsy. -/
def truthy : Option String → Bool
  | none => false
  | some s => s ≠ ""

/-- `handle_a2a_task`: validates the skill id and the two required input
fields, rejects with 503 when `mcp_session` is `None`, otherwise awaits
`execute_ui_generation` (whose result is discarded) and answers with the
fixed `completed` body. The run observation is returned alongside the
response so theorems can inspect what the loop did. -/
def handle_a2a_task (st : GlobalState) (script : ModelScript)
    (req : A2ATaskRequest) : Except HTTPErr (A2AResponse × RunResult) :=
  if req.skill_id ≠ "render_ui" then
    .error ⟨400, "Unknown skill: " ++ req.skill_id⟩
  else if ¬ (truthy req.input_session_id && truthy req.input_instruction) then
    .error ⟨400, "session_id and instruction are required."⟩
  else
    match st.mcp_session with
    | none => .error ⟨503, "MCP connection not ready."⟩
    | some _ =>
      let sid := (req.input_session_id).getD ""
      let instr := (req.input_instruction).getD ""
      .ok (⟨req.task_id, "completed", "UI successfully generated and sent to client."⟩,
           execute_ui_generation st script sid instr)

/-- One message of a `get_prompt` response. -/
structure PromptMessage where
  text : String
deriving Repr, DecidableEq

/-- What the provider does during startup: whether each stage of
`mcp_worker` succeeds, and the data returned by the successful stages.
`streamFailsLater` models a later stream loss breaking the keep-alive
loop. -/
structure ProviderBehavior where
  connectOk : Bool
  initOk : Bool
  session : McpSession
  listToolsOk : Bool
  tools : List Tool
  getPromptOk : Bool
  promptMsgs : List PromptMessage
  streamFailsLater : Bool

/-- How the `mcp_worker` background task ended: parked in the keep-alive
loop, or an exception caught by its `except` and logged ("MCP connection
failed: …"). It never re-raises, so the process never crashes. -/
inductive WorkerEnd where
  | keepAliveForever
  | failedLogged (msg : String)
deriving Repr, DecidableEq

/-- The successive states of the globals at each await point inside
`mcp_worker`, in program order: before the handshake completes, after
`mcp_session = session` (awaiting `list_tools`), after the tools cache is
installed (awaiting `get_prompt`), and after the prompt cache is installed
(inside the keep-alive sleep loop). Request handling can interleave at any
of these points. -/
def worker_states (b : ProviderBehavior) (st0 : GlobalState) : List GlobalState :=
  let st1 : GlobalState := { st0 with mcp_session := some b.session }
  let st2 : GlobalState := { st1 with mcp_tools_cache := b.tools }
  let st3 : GlobalState :=
    match b.promptMsgs with
    | [] => st2
    | m :: _ => { st2 with a2ui_prompt_cache := m.text }
  [st0, st1, st2, st3]

/-- `mcp_worker`: open the transport, initialize, publish the session into
the global, fetch the tool list into the cache, fetch the `a2ui_system`
prompt into the cache (first message's text, when any), then sleep
forever. Every failure, at any stage, is caught by the single `except`
around the whole body and logged; the globals keep whatever had been
assigned before the failure. -/
def mcp_worker (b : ProviderBehavior) (st0 : GlobalState) : GlobalState × WorkerEnd :=
  if ¬ b.connectOk then
    (st0, WorkerEnd.failedLogged "MCP connection failed: transport open failed")
  else if ¬ b.initOk then
    (st0, WorkerEnd.failedLogged "MCP connection failed: initialization handshake failed")
  else
    let st1 : GlobalState := { st0 with mcp_session := some b.session }
    if ¬ b.listToolsOk then
      (st1, WorkerEnd.failedLogged "MCP connection failed: list_tools failed")
    else
      let st2 : GlobalState := { st1 with mcp_tools_cache := b.tools }
      if ¬ b.getPromptOk then
        (st2, WorkerEnd.failedLogged "MCP connection failed: get_prompt failed")
      else
        let st3 : GlobalState :=
          match b.promptMsgs with
          | [] => st2
          | m :: _ => { st2 with a2ui_prompt_cache := m.text }
        if b.streamFailsLater then
          (st3, WorkerEnd.failedLogged "MCP connection failed: stream lost")
        else
          (st3, WorkerEnd.keepAliveForever)

/-- Name uniqueness of a tool catalog (the property §8 of the spec claims
is enforced; the code installs `tools_response.tools` without checking). -/
def namesUnique (ts : List Tool) : Prop :=
  (ts.map Tool.name).Nodup

instance (ts : List Tool) : Decidable (namesUnique ts) := by
  unfold namesUnique; infer_instance

/-- The content string of a successful dispatch (empty when the dispatch
raised; only ever read under a success hypothesis). -/
def dispatchContent (sessOpt : Option McpSession) (tc : ToolCall) : String :=
  match dispatchCall sessOpt tc with
  | .ok p => p.1
  | .error _ => ""

/-- The MCP effects a dispatch performed (none when it raised before
reaching the provider). -/
def dispatchEffects (sessOpt : Option McpSession) (tc : ToolCall) : List McpCall :=
  match dispatchCall sessOpt tc with
  | .ok p => p.2
  | .error _ => []

/-- Whether an MCP effect is a remote `call_tool` delegation. -/
def isRemoteCall : McpCall → Bool
  | .callTool _ _ => true
  | _ => false

/-- One completed tool turn between two model queries: the later history
extends the earlier one with exactly the assistant message and then one
tool-result per requested tool call, in the list order of the requests,
each carrying its request's id and the dispatcher's content. -/
def turnStep (sessOpt : Option McpSession) (prev next : List Message) : Prop :=
  ∃ m : AssistantMsg, m.tool_calls ≠ [] ∧
    (∀ tc ∈ m.tool_calls, (dispatchCall sessOpt tc).isOk = true) ∧
    next = prev ++ Message.assistant m ::
      m.tool_calls.map (fun tc => toolMsg tc (dispatchContent sessOpt tc))

/-! Concrete fixtures for counterexamples and witnesses. -/

/-- A provider session whose `call_tool` always reports an error with one
text block; `read_resource` answers one block. -/
def sessErr : McpSession :=
  { resources := [⟨"ui://catalog", "Catalog"⟩],
    readResourceR := fun _ => [⟨"resource body"⟩],
    callToolR := fun _ _ => ⟨true, [⟨"boom"⟩]⟩ }

/-- A provider session whose `call_tool` reports an error whose text
contains a backslash, which Python `repr` renders escaped. -/
def sessBS : McpSession :=
  { resources := [],
    readResourceR := fun _ => [],
    callToolR := fun _ _ => ⟨true, [⟨"C:\\tmp"⟩]⟩ }

/-- A provider session whose `call_tool` always succeeds with no content. -/
def sessOk : McpSession :=
  { resources := [],
    readResourceR := fun _ => [],
    callToolR := fun _ _ => ⟨false, []⟩ }

/-- Globals as they stand once the worker has fully populated the caches. -/
def readyState : GlobalState :=
  { mcp_session := some sessOk, mcp_tools_cache := [], a2ui_prompt_cache := "P" }

/-- A well-formed `render_ui` request. -/
def okReq : A2ATaskRequest :=
  { task_id := "t1", skill_id := "render_ui",
    input_session_id := some "s1", input_instruction := some "draw a card" }

/-- A discovered tool descriptor. -/
def toolT : Tool := { name := "create_surface", description := "d", inputSchema := "s" }

/-- Provider behavior where every startup stage succeeds. -/
def bAllOk : ProviderBehavior :=
  { connectOk := true, initOk := true, session := sessOk,
    listToolsOk := true, tools := [toolT],
    getPromptOk := true, promptMsgs := [⟨"PROMPT"⟩], streamFailsLater := false }

/-- Provider behavior failing at the tool-discovery stage, after the
session global has been published. -/
def bListFail : ProviderBehavior :=
  { connectOk := true, initOk := true, session := sessOk,
    listToolsOk := false, tools := [],
    getPromptOk := true, promptMsgs := [], streamFailsLater := false }

/-- Provider behavior returning two descriptors with the same name. -/
def bDup : ProviderBehavior :=
  { connectOk := true, initOk := true, session := sessOk,
    listToolsOk := true, tools := [toolT, toolT],
    getPromptOk := true, promptMsgs := [], streamFailsLater := false }

/-- The worker state right after `mcp_session = session`, before
`list_tools` has returned (second await point). -/
def midState : GlobalState :=
  { mcp_session := some bAllOk.session, mcp_tools_cache := [], a2ui_prompt_cache := "" }

/-- A model reply with no tool calls. -/
def plainReply (t : String) : AssistantMsg := { content := t, tool_calls := [] }

/-- A tool call to `read_resource` with well-formed arguments but no `uri`
key. -/
def tcNoUri : ToolCall := { id := "c1", function := { name := "read_resource", arguments := some [] } }

/-- A tool call to a remote tool with empty (but well-formed) arguments. -/
def tcRemote : ToolCall := { id := "c2", function := { name := "create_surface", arguments := some [] } }

/-! Structural lemmas about the loop. -/

/-- The first model query of any run is issued with the seed history the
loop was entered with. -/
theorem loopGo_queries_head (sessOpt : Option McpSession) (sc : ModelScript)
    (msgs : List Message) : (loopGo sessOpt sc msgs).queries.head? = some msgs := by
  cases sc with
  | nil => rfl
  | cons r rest =>
    cases r with
    | error e => rfl
    | ok m =>
      by_cases hm : m.tool_calls = []
      · simp [loopGo, hm]
      · rcases hpc : processCalls sessOpt m.tool_calls with p | p
        · simp [loopGo, hm, hpc]
        · simp [loopGo, hm, hpc]

/-- A successful pass over a turn's tool calls yields exactly one
tool-result message per call, in list order, with the dispatcher's
content, and every dispatch succeeded. -/
theorem processCalls_ok (sessOpt : Option McpSession) (tcs : List ToolCall)
    (ms : List Message) (is : List McpCall)
    (h : processCalls sessOpt tcs = .ok (ms, is)) :
    ms = tcs.map (fun tc => toolMsg tc (dispatchContent sessOpt tc)) ∧
    ∀ tc ∈ tcs, (dispatchCall sessOpt tc).isOk = true := by
  induction tcs generalizing ms is with
  | nil =>
    simp only [processCalls] at h
    cases h
    simp
  | cons tc rest ih =>
    simp only [processCalls] at h
    rcases hd : dispatchCall sessOpt tc with e | p
    · rw [hd] at h; cases h
    · rw [hd] at h
      rcases hpc : processCalls sessOpt rest with q | q
      · rw [hpc] at h; cases h
      · rw [hpc] at h
        cases h
        rcases ih q.1 q.2 hpc with ⟨hms, hall⟩
        constructor
        · simp only [List.map_cons]
          rw [hms]
          have hc : dispatchContent sessOpt tc = p.1 := by
            unfold dispatchContent; rw [hd]
          rw [hc]
        · intro x hx
          rcases List.mem_cons.mp hx with hx | hx
          · subst hx; rw [hd]; rfl
          · exact hall x hx

/-- Every run's query trace is linked by complete tool turns: each query
after the first sees the previous history, the assistant reply, and one
tool-result per request in request order. -/
theorem loopGo_chain (sessOpt : Option McpSession) (sc : ModelScript)
    (msgs : List Message) :
    List.Chain' (turnStep sessOpt) (loopGo sessOpt sc msgs).queries := by
  induction sc generalizing msgs with
  | nil => exact List.chain'_singleton msgs
  | cons r rest ih =>
    cases r with
    | error e => exact List.chain'_singleton msgs
    | ok m =>
      by_cases hm : m.tool_calls = []
      · simp only [loopGo, hm, if_pos rfl]
        exact List.chain'_singleton msgs
      · rcases hpc : processCalls sessOpt m.tool_calls with p | p
        · simp only [loopGo, hm, if_neg hm, hpc]
          exact List.chain'_singleton msgs
        · simp only [loopGo, hm, if_neg hm, hpc]
          refine List.chain'_cons'.mpr ⟨?_, ih _⟩
          intro h hh
          rw [loopGo_queries_head] at hh
          cases hh
          rcases processCalls_ok sessOpt m.tool_calls p.1 p.2 hpc with ⟨hms, hall⟩
          refine ⟨m, hm, hall, ?_⟩
          rw [hms]
          simp [List.append_assoc]

/-- A character `repr` leaves unescaped renders as itself under the
single-quote rendering. -/
theorem pyEscapeChar_plain (c : Char) (h1 : 32 ≤ c.toNat) (h2 : c.toNat < 127)
    (h3 : c.toNat ≠ 92) (h4 : c.toNat ≠ 39) :
    pyEscapeChar (Char.ofNat 39) c = String.singleton c := by
  have hq : ¬ (c = Char.ofNat 39) := by
    intro hc
    exact h4 (by rw [hc]; decide)
  unfold pyEscapeChar
  rw [if_neg h3, if_neg hq, if_neg (by omega), if_neg (by omega), if_neg (by omega),
    if_neg (by omega)]

/-- Escape-free character lists render to themselves. -/
theorem concatMapChars_plain (l : List Char)
    (h : ∀ c ∈ l, pyEscapeChar (Char.ofNat 39) c = String.singleton c) :
    concatMapChars (pyEscapeChar (Char.ofNat 39)) l = String.mk l := by
  induction l with
  | nil => rfl
  | cons c cs ih =>
    simp only [concatMapChars]
    rw [h c (List.mem_cons_self c cs), ih (fun x hx => h x (List.mem_cons_of_mem c hx))]
    apply String.ext
    simp [String.singleton]

/-- `repr` of an escape-free text is the text between two single quotes. -/
theorem pyReprStr_plain (s : String) (h : reprPlain s) :
    pyReprStr s =
      String.singleton (Char.ofNat 39) ++ (s ++ String.singleton (Char.ofNat 39)) := by
  have hq : pyQuoteChar s = Char.ofNat 39 := by
    unfold pyQuoteChar
    have hcont : (s.data.any fun c => c.toNat == 39) = false := by
      rw [List.any_eq_false]
      intro x hx
      have := (h x hx).2.2.2.1
      simp only [beq_iff_eq]
      exact this
    rw [hcont]
    simp
  have hchars : ∀ c ∈ s.data, pyEscapeChar (Char.ofNat 39) c = String.singleton c := by
    intro c hc
    rcases h c hc with ⟨h1, h2, h3, h4, _⟩
    exact pyEscapeChar_plain c h1 h2 h3 h4
  unfold pyReprStr
  rw [hq, concatMapChars_plain s.data hchars]
  have hmk : String.mk s.data = s := rfl
  rw [hmk, String.append_assoc]

/-- For an escape-free text, the block's `repr` splits around the text
occurring verbatim. -/
theorem pyReprBlock_plain (b : ContentBlock) (h : reprPlain b.text) :
    ∃ pre post, pyReprBlock b = pre ++ (b.text ++ post) := by
  refine ⟨"TextContent(type=" ++ pyReprStr "text" ++ ", text="
      ++ String.singleton (Char.ofNat 39),
    String.singleton (Char.ofNat 39) ++ ")", ?_⟩
  unfold pyReprBlock
  rw [pyReprStr_plain b.text h]
  simp only [String.append_assoc]

/-- A block whose `repr` splits around its text propagates that split
through the Python `str` of the whole content list. -/
theorem pyStrBody_contains (blocks : List ContentBlock) (b : ContentBlock)
    (hb : b ∈ blocks) (hdec : ∃ pre post, pyReprBlock b = pre ++ (b.text ++ post)) :
    ∃ p q, pyStrBody blocks = p ++ (b.text ++ q) := by
  induction blocks with
  | nil => cases hb
  | cons x xs ih =>
    rcases hdec with ⟨pre, post, hx⟩
    cases xs with
    | nil =>
      rcases List.mem_singleton.mp hb with rfl
      exact ⟨pre, post, hx⟩
    | cons y ys =>
      rcases List.mem_cons.mp hb with rfl | hb2
      · refine ⟨pre, post ++ (", " ++ pyStrBody (y :: ys)), ?_⟩
        have hstep : pyStrBody (b :: y :: ys) = pyReprBlock b ++ ", " ++ pyStrBody (y :: ys) := rfl
        rw [hstep, hx]
        simp only [String.append_assoc]
      · rcases ih hb2 with ⟨p, q, hp⟩
        refine ⟨pyReprBlock x ++ ", " ++ p, q, ?_⟩
        have hstep : pyStrBody (x :: y :: ys) = pyReprBlock x ++ ", " ++ pyStrBody (y :: ys) := rfl
        rw [hstep, hp]
        simp only [String.append_assoc]

/-- Each escape-free block text occurs verbatim inside an `Error: `-prefixed
payload built from the Python `str` of the result content. -/
theorem errorPayload_contains (blocks : List ContentBlock) (b : ContentBlock)
    (hb : b ∈ blocks) (hpl : reprPlain b.text) :
    ∃ p q, "Error: " ++ pyStrContentList blocks = p ++ (b.text ++ q) := by
  rcases pyStrBody_contains blocks b hb (pyReprBlock_plain b hpl) with ⟨p, q, hp⟩
  refine ⟨"Error: " ++ ("[" ++ p), q ++ "]", ?_⟩
  unfold pyStrContentList
  rw [hp]
  simp only [String.append_assoc]

/-- A model reply carrying the single tool call `tcNoUri`. -/
def mNoUri : AssistantMsg := { content := "", tool_calls := [tcNoUri] }

/-! Claim theorems. -/

/-- C1 (counterexample): with the caches ready and the first model query
raising, `handle_a2a_task` still answers the caller with `status =
"completed"` and the fixed success message, while the run's instrumented
ending records the caught backend error — the failure is reported as
success, not as task failure. -/
theorem C1_counterexample :
    handle_a2a_task readyState [Except.error "model backend down"] okReq =
      Except.ok (⟨"t1", "completed", "UI successfully generated and sent to client."⟩,
        ⟨seedMessages "P" "s1" "draw a card",
         [seedMessages "P" "s1" "draw a card"], [],
         LoopEnd.errored "model backend down"⟩) ∧
    (⟨"t1", "completed", "UI successfully generated and sent to client."⟩ : A2AResponse).status
      ≠ "failed" := by
  exact ⟨rfl, by decide⟩

/-- C1 (amended): a model-backend failure on any query terminates the run
at once — the exception is caught by `execute_ui_generation`'s `except`
(no hang, no crash, nothing further appended or invoked) — but the caller
of `submit` is answered with the fixed `completed` body, i.e. the failure
is swallowed and reported as success. -/
theorem C1_amended (st : GlobalState) (req : A2ATaskRequest) (e : String)
    (rest : ModelScript) (sess : McpSession)
    (hsess : st.mcp_session = some sess)
    (hskill : req.skill_id = "render_ui")
    (hsid : truthy req.input_session_id = true)
    (hinstr : truthy req.input_instruction = true) :
    handle_a2a_task st (Except.error e :: rest) req =
      Except.ok (⟨req.task_id, "completed", "UI successfully generated and sent to client."⟩,
        ⟨seedMessages st.a2ui_prompt_cache (req.input_session_id.getD "")
           (req.input_instruction.getD ""),
         [seedMessages st.a2ui_prompt_cache (req.input_session_id.getD "")
           (req.input_instruction.getD "")],
         [], LoopEnd.errored e⟩) := by
  unfold handle_a2a_task
  rw [hskill]
  simp only [hsid, hinstr, hsess, execute_ui_generation, loopGo]
  simp [execute_ui_generation, hsess, loopGo]

/-- C1 witness: the amended theorem applied at a concrete ready state,
request, and failing first query. -/
theorem C1_amended_witness :
    handle_a2a_task readyState [Except.error "model backend down"] okReq =
      Except.ok (⟨"t1", "completed", "UI successfully generated and sent to client."⟩,
        ⟨seedMessages "P" "s1" "draw a card",
         [seedMessages "P" "s1" "draw a card"], [],
         LoopEnd.errored "model backend down"⟩) :=
  C1_amended readyState okReq "model backend down" [] sessOk rfl rfl rfl rfl

/-- C2 (counterexample): a first reply `"done"` with no tool calls ends
the loop, but the caller of `submit` receives the fixed success message,
not the reply's text — `execute_ui_generation` returns `None`, so the
FinalText is never returned to its caller. -/
theorem C2_counterexample :
    (handle_a2a_task readyState [Except.ok (plainReply "done")] okReq).toOption.map
        (fun p => p.1.message) = some "UI successfully generated and sent to client." ∧
    ¬ ((handle_a2a_task readyState [Except.ok (plainReply "done")] okReq).toOption.map
        (fun p => p.1.message) = some "done") := by
  exact ⟨rfl, by decide⟩

/-- C2 (amended): when the first reply carries zero tool calls the loop
terminates immediately after it — exactly one model query, zero tool
invocations, the reply appended as the last message, and the reply's text
recorded as the loop's final text — but that text is not returned to the
caller: the handler answers with the fixed `completed` body. -/
theorem C2_amended (st : GlobalState) (req : A2ATaskRequest) (m : AssistantMsg)
    (rest : ModelScript) (sess : McpSession)
    (hsess : st.mcp_session = some sess)
    (hskill : req.skill_id = "render_ui")
    (hsid : truthy req.input_session_id = true)
    (hinstr : truthy req.input_instruction = true)
    (hm : m.tool_calls = []) :
    handle_a2a_task st (Except.ok m :: rest) req =
      Except.ok (⟨req.task_id, "completed", "UI successfully generated and sent to client."⟩,
        ⟨seedMessages st.a2ui_prompt_cache (req.input_session_id.getD "")
           (req.input_instruction.getD "") ++ [Message.assistant m],
         [seedMessages st.a2ui_prompt_cache (req.input_session_id.getD "")
           (req.input_instruction.getD "")],
         [], LoopEnd.finished m.content⟩) := by
  unfold handle_a2a_task
  rw [hskill]
  simp [hsid, hinstr, hsess, execute_ui_generation, loopGo, hm]

/-- C2 witness: the amended theorem applied at a concrete ready state and
a scripted first reply `"done"` with no tool calls. -/
theorem C2_amended_witness :
    handle_a2a_task readyState [Except.ok (plainReply "done")] okReq =
      Except.ok (⟨"t1", "completed", "UI successfully generated and sent to client."⟩,
        ⟨seedMessages "P" "s1" "draw a card" ++ [Message.assistant (plainReply "done")],
         [seedMessages "P" "s1" "draw a card"], [],
         LoopEnd.finished "done"⟩) :=
  C2_amended readyState okReq (plainReply "done") [] sessOk rfl rfl rfl rfl rfl

/-- C3 (counterexample): `midState` — the globals right after
`mcp_session = session`, an awaited point the worker actually passes
through before `list_tools` returns — has empty caches (discovery and
prompt fetch have not succeeded, though the provider has both), yet
`handle_a2a_task` proceeds and starts the conversation run instead of
rejecting: a run starts while the snapshot is not ready in the spec's
sense. -/
theorem C3_counterexample :
    midState ∈ worker_states bAllOk initialState ∧
    midState.mcp_tools_cache = [] ∧
    midState.a2ui_prompt_cache = "" ∧
    bAllOk.tools ≠ [] ∧
    bAllOk.promptMsgs ≠ [] ∧
    (handle_a2a_task midState [Except.ok (plainReply "done")] okReq).isOk = true := by
  refine ⟨?_, rfl, rfl, by decide, by decide, rfl⟩
  unfold worker_states
  exact List.mem_cons.mpr (Or.inr (List.mem_cons.mpr (Or.inl rfl)))

/-- C3 (amended): the only readiness gate in `handle_a2a_task` is
`mcp_session is None`: the 503 rejection happens (before any model query)
exactly when the request is otherwise valid and the session global is
unset. Readiness does not require tool discovery or the prompt fetch to
have succeeded, since the session global is published before either. -/
theorem C3_amended (st : GlobalState) (script : ModelScript) (req : A2ATaskRequest) :
    handle_a2a_task st script req = Except.error ⟨503, "MCP connection not ready."⟩ ↔
      (req.skill_id = "render_ui" ∧ truthy req.input_session_id = true ∧
       truthy req.input_instruction = true ∧ st.mcp_session = none) := by
  unfold handle_a2a_task
  by_cases h1 : req.skill_id = "render_ui"
  · by_cases h2 : truthy req.input_session_id = true
    · by_cases h3 : truthy req.input_instruction = true
      · cases hs : st.mcp_session with
        | none => simp [h1, h2, h3, hs]
        | some sess => simp [h1, h2, h3, hs]
      · simp [h1, h2, h3]
    · simp [h1, h2]
  · simp [h1]

/-- C4 (counterexample): a first reply requesting `read_resource` with no
`uri` key aborts the run — the `AnyUrl` validation raises, the exception
is caught at the top level, no tool-result is appended, no MCP call
happens, and the second scripted reply is never requested (one single
query) — instead of producing an InvalidArgument tool-result and
continuing. -/
theorem C4_counterexample :
    execute_ui_generation readyState [Except.ok mNoUri, Except.ok (plainReply "done")] "s" "i" =
      ⟨seedMessages "P" "s" "i" ++ [Message.assistant mNoUri],
       [seedMessages "P" "s" "i"], [],
       LoopEnd.errored "url_type: URL input should be a string, got None"⟩ ∧
    (execute_ui_generation readyState
        [Except.ok mNoUri, Except.ok (plainReply "done")] "s" "i").queries.length = 1 := by
  exact ⟨rfl, rfl⟩

/-- C4 (amended): a `read_resource` request whose `uri` fails `AnyUrl`
validation (missing or malformed) raises; the run terminates with the
exception caught by the outer `except`: the assistant message is the last
one appended, no tool-result is produced, no MCP call is made, and the
model is not queried again. -/
theorem C4_amended (sess : McpSession) (tc : ToolCall) (args : ArgDict)
    (m : AssistantMsg) (rest : ModelScript) (msgs : List Message) (e : String)
    (hname : tc.function.name = "read_resource")
    (hargs : tc.function.arguments = some args)
    (huri : anyUrl (argGet args "uri") = .error e)
    (hm : m.tool_calls = [tc]) :
    loopGo (some sess) (Except.ok m :: rest) msgs =
      ⟨msgs ++ [Message.assistant m], [msgs], [], LoopEnd.errored e⟩ := by
  have hd : dispatchCall (some sess) tc = .error e := by
    unfold dispatchCall
    rw [hargs, hname]
    simp [huri]
  simp [loopGo, hm, processCalls, hd]

/-- C4 witness: the amended theorem applied to a concrete `read_resource`
call with well-formed arguments lacking the `uri` key. -/
theorem C4_amended_witness :
    loopGo (some sessOk) [Except.ok mNoUri] [] =
      ⟨[Message.assistant mNoUri], [[]], [],
       LoopEnd.errored "url_type: URL input should be a string, got None"⟩ :=
  C4_amended sessOk tcNoUri [] mNoUri [] []
    "url_type: URL input should be a string, got None" rfl rfl rfl rfl

/-- C5 (counterexample): with the provider failing at the tool-discovery
stage — after the handshake published the session global — the worker
catches and logs the failure, but the session global stays set: the
snapshot is left in the state the readiness gate treats as ready, not in
the not-ready state. -/
theorem C5_counterexample :
    (mcp_worker bListFail initialState).2 =
      WorkerEnd.failedLogged "MCP connection failed: list_tools failed" ∧
    (mcp_worker bListFail initialState).1.mcp_session.isSome = true := by
  exact ⟨rfl, rfl⟩

/-- C5 (amended): every failure at any stage is caught by the worker's
single `except` and logged, and the worker never crashes (it either parks
in the keep-alive loop — exactly when every stage succeeded — or ends
logged). A failure before the handshake completes leaves the globals
untouched (hence not ready); but once the handshake has published the
session, any later failure (tool discovery, prompt fetch, stream loss)
leaves `mcp_session` set, so the readiness gate still passes. -/
theorem C5_amended (b : ProviderBehavior) (st0 : GlobalState) :
    ((mcp_worker b st0).2 = WorkerEnd.keepAliveForever ↔
      (b.connectOk = true ∧ b.initOk = true ∧ b.listToolsOk = true ∧
       b.getPromptOk = true ∧ b.streamFailsLater = false)) ∧
    (¬ (b.connectOk = true ∧ b.initOk = true) → (mcp_worker b st0).1 = st0) ∧
    ((b.connectOk = true ∧ b.initOk = true) →
      (mcp_worker b st0).1.mcp_session = some b.session) := by
  unfold mcp_worker
  cases hc : b.connectOk <;> cases hi : b.initOk <;> cases hl : b.listToolsOk <;>
    cases hg : b.getPromptOk <;> cases hs : b.streamFailsLater <;>
      cases hp : b.promptMsgs <;> simp_all

/-- C5 witness: the amended theorem applied to the discovery-stage
failure, showing the session global remains published. -/
theorem C5_amended_witness :
    (mcp_worker bListFail initialState).1.mcp_session = some bListFail.session :=
  (C5_amended bListFail initialState).2.2 ⟨rfl, rfl⟩

/-- A model reply carrying the single remote tool call `tcRemote`. -/
def mRemote : AssistantMsg := { content := "", tool_calls := [tcRemote] }

/-- A tool call to the built-in `list_resources`. -/
def tcList : ToolCall := { id := "c3", function := { name := "list_resources", arguments := some [] } }

/-- The payload the dispatcher builds for a provider-reported tool error:
`f"Error: \x7bresult.content\x7d"`. -/
def errPayload (sess : McpSession) (tc : ToolCall) (args : ArgDict) : String :=
  "Error: " ++ pyStrContentList (sess.callToolR tc.function.name args).content

/-- C6 (amended): a remote call whose provider result has `isError=true`
yields an error outcome whose payload is `Error: ` followed by the Python
`str` of the provider's content — each block's text rendered through
`repr`, hence occurring verbatim exactly for texts `repr` leaves
unescaped — and the outcome is appended as the turn's tool-result message
while the loop goes on to the next model query instead of aborting. -/
theorem C6_provider_error_surfaced (sess : McpSession) (rest : ModelScript)
    (msgs : List Message) (m : AssistantMsg) (tc : ToolCall) (args : ArgDict)
    (hn1 : tc.function.name ≠ "list_resources")
    (hn2 : tc.function.name ≠ "read_resource")
    (hargs : tc.function.arguments = some args)
    (herr : (sess.callToolR tc.function.name args).isError = true)
    (hm : m.tool_calls = [tc]) :
    loopGo (some sess) (Except.ok m :: rest) msgs =
      { messages := (loopGo (some sess) rest
          (msgs ++ [Message.assistant m, toolMsg tc (errPayload sess tc args)])).messages,
        queries := msgs :: (loopGo (some sess) rest
          (msgs ++ [Message.assistant m, toolMsg tc (errPayload sess tc args)])).queries,
        invocations := McpCall.callTool tc.function.name args ::
          (loopGo (some sess) rest
            (msgs ++ [Message.assistant m, toolMsg tc (errPayload sess tc args)])).invocations,
        ending := (loopGo (some sess) rest
          (msgs ++ [Message.assistant m, toolMsg tc (errPayload sess tc args)])).ending } ∧
    ∀ b ∈ (sess.callToolR tc.function.name args).content, reprPlain b.text →
      ∃ p q, errPayload sess tc args = p ++ (b.text ++ q) := by
  have hd : dispatchCall (some sess) tc =
      .ok (errPayload sess tc args, [McpCall.callTool tc.function.name args]) := by
    unfold dispatchCall errPayload
    rw [hargs]
    simp [hn1, hn2, herr]
  constructor
  · simp [loopGo, hm, processCalls, hd, List.append_assoc]
  · intro b hb hpl
    simpa [errPayload] using
      errorPayload_contains (sess.callToolR tc.function.name args).content b hb hpl

/-- C6 witness: the theorem applied to a provider stub whose `call_tool`
reports an error with one escape-free text block `boom`, which therefore
occurs verbatim in the appended payload. -/
theorem C6_witness :
    (loopGo (some sessErr) [Except.ok mRemote] [] =
      { messages := (loopGo (some sessErr) []
          ([] ++ [Message.assistant mRemote, toolMsg tcRemote (errPayload sessErr tcRemote [])])).messages,
        queries := [] :: (loopGo (some sessErr) []
          ([] ++ [Message.assistant mRemote, toolMsg tcRemote (errPayload sessErr tcRemote [])])).queries,
        invocations := McpCall.callTool tcRemote.function.name [] ::
          (loopGo (some sessErr) []
            ([] ++ [Message.assistant mRemote, toolMsg tcRemote (errPayload sessErr tcRemote [])])).invocations,
        ending := (loopGo (some sessErr) []
          ([] ++ [Message.assistant mRemote, toolMsg tcRemote (errPayload sessErr tcRemote [])])).ending }) ∧
    ∃ p q, errPayload sessErr tcRemote [] = p ++ ("boom" ++ q) := by
  have h := C6_provider_error_surfaced sessErr [] [] mRemote tcRemote []
    (by decide) (by decide) rfl rfl rfl
  exact ⟨h.1, h.2 ⟨"boom"⟩ (by decide) (by decide)⟩

/-- C6 (counterexample): a provider error text containing a backslash,
`C:\tmp`, is rendered by `repr` with the backslash escaped, so the
appended payload does not contain the provider's error text verbatim —
the original universal verbatim claim fails, even though the error
outcome is produced and appended as a tool-result. -/
theorem C6_counterexample :
    dispatchCall (some sessBS) tcRemote =
      .ok (errPayload sessBS tcRemote [], [McpCall.callTool "create_surface" []]) ∧
    ¬ ∃ p q : String, errPayload sessBS tcRemote [] = p ++ ("C:\\tmp" ++ q) := by
  constructor
  · rfl
  · rintro ⟨p, q, h⟩
    have hinf : ("C:\\tmp").data <:+: (errPayload sessBS tcRemote []).data := by
      refine ⟨p.data, q.data, ?_⟩
      rw [List.append_assoc, ← String.data_append, ← String.data_append, ← h]
    exact absurd hinf (by decide)

/-- C7: within one run, the histories of successive model queries are
linked by complete tool turns: each query after the first sees exactly the
previous history, the assistant reply, and one tool-result per requested
tool call, keyed by the request's id, in the list order of the requests —
so every request receives exactly one result and a turn's results are all
appended before the next query is issued. -/
theorem C7_turns_complete (st : GlobalState) (script : ModelScript)
    (sid instr : String) :
    List.Chain' (turnStep st.mcp_session)
      (execute_ui_generation st script sid instr).queries := by
  unfold execute_ui_generation
  exact loopGo_chain _ _ _

/-- C8: a successful remote call (provider `isError=false`) with zero
content items yields the payload `Success`; with any content items it
yields their JSON serialization as a single array in the items' order
(`dumpsContentList`, which maps the items in list order). -/
theorem C8_result_normalization (sess : McpSession) (tc : ToolCall) (args : ArgDict)
    (hn1 : tc.function.name ≠ "list_resources")
    (hn2 : tc.function.name ≠ "read_resource")
    (hargs : tc.function.arguments = some args)
    (hok : (sess.callToolR tc.function.name args).isError = false) :
    ((sess.callToolR tc.function.name args).content = [] →
      dispatchCall (some sess) tc =
        .ok ("Success", [McpCall.callTool tc.function.name args])) ∧
    ((sess.callToolR tc.function.name args).content ≠ [] →
      dispatchCall (some sess) tc =
        .ok (dumpsContentList (sess.callToolR tc.function.name args).content,
             [McpCall.callTool tc.function.name args])) := by
  constructor
  · intro hc
    unfold dispatchCall
    rw [hargs]
    simp [hn1, hn2, hok, hc]
  · intro hc
    unfold dispatchCall
    rw [hargs]
    simp [hn1, hn2, hok, hc]

/-- C8 witness: the theorem applied to a provider stub answering success
with zero content items, yielding payload `Success`. -/
theorem C8_witness :
    dispatchCall (some sessOk) tcRemote =
      .ok ("Success", [McpCall.callTool tcRemote.function.name []]) :=
  (C8_result_normalization sessOk tcRemote [] (by decide) (by decide) rfl rfl).1 rfl

/-- C9 (counterexample): a provider response with two descriptors of the
same name passes every startup stage — the worker ends parked in the
keep-alive loop, no error of any kind — and the duplicate-named list is
installed verbatim in the cache; nothing detects the violated uniqueness. -/
theorem C9_counterexample :
    (mcp_worker bDup initialState).2 = WorkerEnd.keepAliveForever ∧
    (mcp_worker bDup initialState).1.mcp_tools_cache = [toolT, toolT] ∧
    ¬ namesUnique (mcp_worker bDup initialState).1.mcp_tools_cache := by
  refine ⟨rfl, rfl, ?_⟩
  rw [show (mcp_worker bDup initialState).1.mcp_tools_cache = [toolT, toolT] from rfl]
  decide

/-- C9 (amended): snapshot construction performs no uniqueness check:
whenever the startup stages succeed, `tools_response.tools` is installed
verbatim as the cache (duplicates included) and the worker parks in the
keep-alive loop, and the catalog translation maps the cached names
verbatim into the model's function list (followed by the two built-ins) —
duplicate names are never detected as a configuration error. -/
theorem C9_amended (b : ProviderBehavior) (st0 : GlobalState)
    (hc : b.connectOk = true) (hi : b.initOk = true) (hl : b.listToolsOk = true)
    (hg : b.getPromptOk = true) (hs : b.streamFailsLater = false) :
    (mcp_worker b st0).1.mcp_tools_cache = b.tools ∧
    (mcp_worker b st0).2 = WorkerEnd.keepAliveForever ∧
    (build_openai_tools b.tools).map OpenAITool.name =
      b.tools.map Tool.name ++ ["list_resources", "read_resource"] := by
  refine ⟨?_, ?_, ?_⟩
  · unfold mcp_worker
    simp only [hc, hi, hl, hg, hs]
    cases b.promptMsgs <;> simp
  · unfold mcp_worker
    simp only [hc, hi, hl, hg, hs]
    cases b.promptMsgs <;> simp
  · simp [build_openai_tools]

/-- C9 witness: the amended theorem applied to the duplicate-descriptor
behavior, showing the duplicated list installed verbatim. -/
theorem C9_amended_witness :
    (mcp_worker bDup initialState).1.mcp_tools_cache = bDup.tools :=
  (C9_amended bDup initialState rfl rfl rfl rfl rfl).1

/-- C10: the dispatcher matches the built-in names before any remote
delegation and never consults the discovered catalog at all, so a tool
call named `list_resources` or `read_resource` never produces a remote
`call_tool` effect — even if a discovered capability bears the same name —
and when the dispatch succeeds its effect is exactly the corresponding
local built-in. -/
theorem C10_builtin_shadowing (sessOpt : Option McpSession) (tc : ToolCall)
    (h : tc.function.name = "list_resources" ∨ tc.function.name = "read_resource") :
    (∀ c ∈ dispatchEffects sessOpt tc, isRemoteCall c = false) ∧
    ∀ content effs, dispatchCall sessOpt tc = .ok (content, effs) →
      (tc.function.name = "list_resources" → effs = [McpCall.listResources]) ∧
      (tc.function.name = "read_resource" → ∃ u, effs = [McpCall.readResource u]) := by
  rcases hs : sessOpt with _ | sess <;>
    rcases harg : tc.function.arguments with _ | args <;>
      rcases h with h | h <;>
        simp_all [dispatchEffects, dispatchCall, isRemoteCall]
  all_goals rcases hu : anyUrl (argGet args "uri") with e | u <;> simp_all

/-- C10 witness: the theorem applied to a `list_resources` call against a
live session: the only effect is the local built-in. -/
theorem C10_witness :
    (∀ c ∈ dispatchEffects (some sessOk) tcList, isRemoteCall c = false) ∧
    ∀ content effs, dispatchCall (some sessOk) tcList = .ok (content, effs) →
      (tcList.function.name = "list_resources" → effs = [McpCall.listResources]) ∧
      (tcList.function.name = "read_resource" → ∃ u, effs = [McpCall.readResource u]) :=
  C10_builtin_shadowing (some sessOk) tcList (Or.inl rfl)

end Freesail
